import Mathlib

/-!
Shallow embedding of the twitter-backend repository (FastAPI + SQLAlchemy).

Database tables (`app/models/models.py`) are embedded as Lean structures and
a `DB` record of row lists.  Request handlers (`app/api/interactions.py`,
`app/api/tweets.py`, `app/api/users.py`, `app/services/users_service.py`)
become pure functions `DB → DB × Option HError`: every handler raises its
`HTTPException`s before performing any session mutation, so the error leg
returns the state unchanged, exactly as in the source.  ORM timestamps that
no verified property mentions (`updated_at` columns) and relationship
attributes are omitted; `created_at` columns used by `order_by` clauses are
kept as `Nat` instants.  Autoincrement of `tweets.id` is modelled by a
`nextTweetId` sequence counter in `DB`.
-/

namespace TwitterBackend

/-- Row of `users` (`app/models/models.py`, class `User`). -/
structure User where
  id : Nat
  lastname : String := ""
  firstname : String := ""
  username : String := ""
  email : String := ""
  password : String := ""
  bio : Option String := none
  profile_image_url : Option String := none
  banner_image_url : Option String := none
  is_active : Bool := true
  created_at : Nat := 0
  deriving DecidableEq

/-- Row of `tweets` (class `Tweet`): content, media, the three denormalized
counters (Python ints, hence `Int`), creation instant. -/
structure Tweet where
  id : Nat
  user_id : Nat
  content : String := ""
  image_url : Option String := none
  video_url : Option String := none
  likes_count : Int := 0
  retweets_count : Int := 0
  replies_count : Int := 0
  created_at : Nat := 0
  deriving DecidableEq

/-- Row of `likes` (class `Like`): the (actor, target) edge. -/
structure Like where
  user_id : Nat
  tweet_id : Nat
  deriving DecidableEq

/-- Row of `retweets` (class `Retweet`). -/
structure Retweet where
  user_id : Nat
  original_tweet_id : Nat
  comment : Option String := none
  deriving DecidableEq

/-- Row of `replies` (class `Reply`): links a child tweet to its parent. -/
structure Reply where
  tweet_id : Nat
  parent_tweet_id : Nat
  deriving DecidableEq

/-- Row of `follows` (class `Follow`). -/
structure Follow where
  follower_id : Nat
  following_id : Nat
  deriving DecidableEq

/-- Row of `bookmarks` (class `Bookmark`). -/
structure Bookmark where
  user_id : Nat
  tweet_id : Nat
  deriving DecidableEq

/-- Row of `notifications` (class `Notification`). -/
structure Notification where
  user_id : Nat
  type : String
  sender_id : Option Nat := none
  tweet_id : Option Nat := none
  content : Option String := none
  deriving DecidableEq

/-- Row of `facial_expressions` (class `FacialExpression`); the `confidence`
float is not used by any verified property and is omitted. -/
structure FacialExpression where
  user_id : Nat
  tweet_id : Option Nat := none
  emotion : String
  created_at : Nat := 0
  deriving DecidableEq

/-- The relational state: one list per table plus the `tweets.id`
autoincrement sequence. -/
structure DB where
  users : List User := []
  tweets : List Tweet := []
  likes : List Like := []
  retweets : List Retweet := []
  replies : List Reply := []
  follows : List Follow := []
  bookmarks : List Bookmark := []
  notifications : List Notification := []
  facial_expressions : List FacialExpression := []
  nextTweetId : Nat := 1
  deriving DecidableEq

/-- An `HTTPException(status_code, detail)`. -/
structure HError where
  status : Nat
  detail : String
  deriving DecidableEq

/-- Modelled from the spec: §7 names the error kinds and §6 maps them onto
the handlers' HTTP statuses (404 NotFound, 400 Conflict for a duplicate
edge or invalid request, 401 Unauthorized, 403 Forbidden, 500 Internal). -/
inductive ErrorKind where
  | notFound
  | conflict
  | unauthorized
  | forbidden
  | internal
  deriving DecidableEq

/-- Modelled from the spec: classify a raised `HTTPException` by the
spec's error taxonomy (§6/§7). -/
def HError.kind (e : HError) : ErrorKind :=
  if e.status = 404 then .notFound
  else if e.status = 400 then .conflict
  else if e.status = 401 then .unauthorized
  else if e.status = 403 then .forbidden
  else .internal

/-- SQLAlchemy mutates the single row object returned by `.first()`;
`updateFirstTweet l tid f` applies `f` to the first row whose `id` is
`tid` and keeps every other row. -/
def updateFirstTweet : List Tweet → Nat → (Tweet → Tweet) → List Tweet
  | [], _, _ => []
  | t :: ts, tid, f => if t.id = tid then f t :: ts else t :: updateFirstTweet ts tid f

/-- `POST /like` (`app/api/interactions.py`, `like_tweet`). -/
def like_tweet (current_user : User) (tweet_id : Nat) (db : DB) : DB × Option HError :=
  match db.tweets.find? (fun t => t.id == tweet_id) with
  | none => (db, some ⟨404, "Tweet not found"⟩)
  | some tweet =>
    match db.likes.find? (fun l => l.user_id == current_user.id && l.tweet_id == tweet_id) with
    | some _ => (db, some ⟨400, "Already liked"⟩)
    | none =>
      let db1 : DB := { db with likes := db.likes ++ [⟨current_user.id, tweet_id⟩] }
      let tweets2 := updateFirstTweet db1.tweets tweet_id
        (fun t => { t with likes_count := t.likes_count + 1 })
      let db2 : DB := { db1 with tweets := tweets2 }
      let db3 : DB :=
        if tweet.user_id ≠ current_user.id then
          { db2 with notifications := db2.notifications ++
            [⟨tweet.user_id, "like", some current_user.id, some tweet.id,
              some (current_user.firstname ++ " a aimé votre tweet")⟩] }
        else db2
      (db3, none)

/-- `DELETE /like/{tweet_id}` (`unlike_tweet`). -/
def unlike_tweet (current_user : User) (tweet_id : Nat) (db : DB) : DB × Option HError :=
  match db.likes.find? (fun l => l.user_id == current_user.id && l.tweet_id == tweet_id) with
  | none => (db, some ⟨404, "Like not found"⟩)
  | some _ =>
    let clampedTweets := updateFirstTweet db.tweets tweet_id
      (fun t => { t with likes_count := max 0 (t.likes_count - 1) })
    let db1 : DB :=
      match db.tweets.find? (fun t => t.id == tweet_id) with
      | some _ => { db with tweets := clampedTweets }
      | none => db
    let likes1 := db1.likes.eraseP
      (fun l => l.user_id == current_user.id && l.tweet_id == tweet_id)
    ({ db1 with likes := likes1 }, none)

/-- `POST /retweet` (`retweet`). -/
def retweet (current_user : User) (original_tweet_id : Nat) (comment : Option String)
    (db : DB) : DB × Option HError :=
  match db.tweets.find? (fun t => t.id == original_tweet_id) with
  | none => (db, some ⟨404, "Tweet not found"⟩)
  | some tweet =>
    match db.retweets.find?
        (fun r => r.user_id == current_user.id && r.original_tweet_id == original_tweet_id) with
    | some _ => (db, some ⟨400, "Already retweeted"⟩)
    | none =>
      let retweets1 := db.retweets ++ [⟨current_user.id, original_tweet_id, comment⟩]
      let db1 : DB := { db with retweets := retweets1 }
      let tweets2 := updateFirstTweet db1.tweets original_tweet_id
        (fun t => { t with retweets_count := t.retweets_count + 1 })
      let db2 : DB := { db1 with tweets := tweets2 }
      let db3 : DB :=
        if tweet.user_id ≠ current_user.id then
          { db2 with notifications := db2.notifications ++
            [⟨tweet.user_id, "retweet", some current_user.id, some tweet.id,
              some (current_user.firstname ++ " a retweeté votre tweet")⟩] }
        else db2
      (db3, none)

/-- `POST /reply` (`reply_to_tweet`); `now` is the database clock used for
the new row's `created_at`. -/
def reply_to_tweet (current_user : User) (parent_tweet_id : Nat) (content : String)
    (now : Nat) (db : DB) : DB × Option HError :=
  match db.tweets.find? (fun t => t.id == parent_tweet_id) with
  | none => (db, some ⟨404, "Parent tweet not found"⟩)
  | some parent_tweet =>
    let reply_tweet : Tweet :=
      { id := db.nextTweetId, user_id := current_user.id, content := content,
        created_at := now }
    let db1 : DB := { db with tweets := db.tweets ++ [reply_tweet],
                              nextTweetId := db.nextTweetId + 1 }
    let replies2 := db1.replies ++ [⟨reply_tweet.id, parent_tweet_id⟩]
    let db2 : DB := { db1 with replies := replies2 }
    let tweets3 := updateFirstTweet db2.tweets parent_tweet_id
      (fun t => { t with replies_count := t.replies_count + 1 })
    let db3 : DB := { db2 with tweets := tweets3 }
    let db4 : DB :=
      if parent_tweet.user_id ≠ current_user.id then
        { db3 with notifications := db3.notifications ++
          [⟨parent_tweet.user_id, "reply", some current_user.id, some parent_tweet.id,
            some (current_user.firstname ++ " a répondu à votre tweet")⟩] }
      else db3
    (db4, none)

/-- `POST /bookmark` (`bookmark_tweet`): inserts the edge row only. -/
def bookmark_tweet (current_user : User) (tweet_id : Nat) (db : DB) : DB × Option HError :=
  match db.tweets.find? (fun t => t.id == tweet_id) with
  | none => (db, some ⟨404, "Tweet not found"⟩)
  | some _ =>
    match db.bookmarks.find?
        (fun b => b.user_id == current_user.id && b.tweet_id == tweet_id) with
    | some _ => (db, some ⟨400, "Already bookmarked"⟩)
    | none =>
      ({ db with bookmarks := db.bookmarks ++ [⟨current_user.id, tweet_id⟩] }, none)

/-- `POST /follow` (`follow_user`). -/
def follow_user (current_user : User) (following_id : Nat) (db : DB) : DB × Option HError :=
  match db.users.find? (fun u => u.id == following_id) with
  | none => (db, some ⟨404, "User not found"⟩)
  | some _ =>
    if following_id = current_user.id then
      (db, some ⟨400, "Cannot follow yourself"⟩)
    else
      match db.follows.find?
          (fun f => f.follower_id == current_user.id && f.following_id == following_id) with
      | some _ => (db, some ⟨400, "Already following this user"⟩)
      | none =>
        let db1 : DB := { db with follows := db.follows ++ [⟨current_user.id, following_id⟩] }
        ({ db1 with notifications := db1.notifications ++
            [⟨following_id, "follow", some current_user.id, none,
              some (current_user.firstname ++ " " ++ current_user.lastname ++
                " a commencé à vous suivre")⟩] }, none)

/-- Response shape of `GET /tweets` (`app/schemas/schemas.py`,
`TweetResponse`); `hashtags` is the constant `[]` in the handler and is
omitted, `author` is the `tweet.user` relationship. -/
structure TweetResponse where
  id : Nat
  user_id : Nat
  content : String
  image_url : Option String
  video_url : Option String
  likes_count : Int
  retweets_count : Int
  replies_count : Int
  author : Option User
  is_liked : Bool
  is_retweeted : Bool
  is_bookmarked : Bool
  deriving DecidableEq

/-- `ORDER BY created_at DESC` over a row list, as a stable sort. -/
def sortByCreatedDesc {α : Type} (key : α → Nat) (l : List α) : List α :=
  l.insertionSort (fun a b => key b ≤ key a)

/-- `GET /tweets` (`app/api/tweets.py`, `get_tweets`): page of the timeline
with the three per-viewer flags; `current_user` is the handler's
`Optional[User]` parameter. -/
def get_tweets (limit offset : Nat) (current_user : Option User) (db : DB) :
    List TweetResponse :=
  let tweets := ((sortByCreatedDesc (·.created_at) db.tweets).drop offset).take limit
  tweets.map (fun t =>
    let is_liked :=
      match current_user with
      | some cu => db.likes.any (fun l => l.user_id == cu.id && l.tweet_id == t.id)
      | none => false
    let is_retweeted :=
      match current_user with
      | some cu => db.retweets.any (fun r => r.user_id == cu.id && r.original_tweet_id == t.id)
      | none => false
    let is_bookmarked :=
      match current_user with
      | some cu => db.bookmarks.any (fun b => b.user_id == cu.id && b.tweet_id == t.id)
      | none => false
    { id := t.id, user_id := t.user_id, content := t.content,
      image_url := t.image_url, video_url := t.video_url,
      likes_count := t.likes_count, retweets_count := t.retweets_count,
      replies_count := t.replies_count,
      author := db.users.find? (fun u => u.id == t.user_id),
      is_liked := is_liked, is_retweeted := is_retweeted,
      is_bookmarked := is_bookmarked })

/-- A `**kwargs` value: Python is dynamically typed, so a value is a string,
an integer or a boolean; `none` at the call site models an explicit `None`. -/
inductive AttrVal where
  | str (v : String)
  | int (v : Nat)
  | bool (v : Bool)
  deriving DecidableEq

/-- `hasattr(user, key)` over the columns of the `User` model embedded
here. -/
def hasattrUser (key : String) : Bool :=
  key ∈ ["id", "lastname", "firstname", "username", "email", "password",
         "bio", "profile_image_url", "banner_image_url", "is_active", "created_at"]

/-- `setattr(user, key, value)`; assigning a value of the wrong type for a
column is rejected by the database layer at commit and is modelled as a
no-op. -/
def setUserAttr (u : User) (key : String) (v : AttrVal) : User :=
  if key = "lastname" then match v with | .str s => { u with lastname := s } | _ => u
  else if key = "firstname" then match v with | .str s => { u with firstname := s } | _ => u
  else if key = "username" then match v with | .str s => { u with username := s } | _ => u
  else if key = "email" then match v with | .str s => { u with email := s } | _ => u
  else if key = "password" then match v with | .str s => { u with password := s } | _ => u
  else if key = "bio" then match v with | .str s => { u with bio := some s } | _ => u
  else if key = "profile_image_url" then
    match v with | .str s => { u with profile_image_url := some s } | _ => u
  else if key = "banner_image_url" then
    match v with | .str s => { u with banner_image_url := some s } | _ => u
  else if key = "is_active" then match v with | .bool b => { u with is_active := b } | _ => u
  else if key = "id" then match v with | .int n => { u with id := n } | _ => u
  else if key = "created_at" then match v with | .int n => { u with created_at := n } | _ => u
  else u

/-- The `for key, value in kwargs.items()` loop of `update_user`
(`app/services/users_service.py`): skip `None` values and unknown
attributes, assign the rest. -/
def applyKwargs (kwargs : List (String × Option AttrVal)) (u : User) : User :=
  kwargs.foldl
    (fun u kv =>
      match kv.2 with
      | none => u
      | some v => if hasattrUser kv.1 then setUserAttr u kv.1 v else u)
    u

/-- SQLAlchemy mutates the single row object returned by the query;
`updateFirstUser` mirrors `updateFirstTweet` for the `users` table. -/
def updateFirstUser : List User → Nat → (User → User) → List User
  | [], _, _ => []
  | u :: us, uid, f => if u.id = uid then f u :: us else u :: updateFirstUser us uid f

/-- `update_user` (`app/services/users_service.py`): pop `password` and
`id` from the kwargs dict, then assign the remaining non-`None` known
attributes; returns the updated row, or `none` when the user is absent. -/
def update_user (db : DB) (user_id : Nat) (kwargs : List (String × Option AttrVal)) :
    DB × Option User :=
  match db.users.find? (fun u => u.id == user_id) with
  | none => (db, none)
  | some user =>
    let kwargs1 := (kwargs.filter (fun kv => kv.1 ≠ "password")).filter
      (fun kv => kv.1 ≠ "id")
    let user1 := applyKwargs kwargs1 user
    ({ db with users := updateFirstUser db.users user_id (fun _ => user1) }, some user1)

/-- `timedelta(hours=24)` in seconds. -/
def last24h : Nat := 86400

/-- `created_at >= datetime.now() - timedelta(hours=24)`. -/
def isRecent (now created_at : Nat) : Bool := now - last24h ≤ created_at

/-- The requester's most recent facial expression of the last 24 hours
(`get_user_suggestions`, `recent_expression`). -/
def recent_expression (cu : User) (now : Nat) (db : DB) : Option FacialExpression :=
  (sortByCreatedDesc (·.created_at)
    (db.facial_expressions.filter
      (fun fe => fe.user_id == cu.id && isRecent now fe.created_at))).head?

/-- User ids with a recent expression of the given emotion
(`similar_emotion_users` subquery; its `group_by` only deduplicates and
does not change membership). -/
def similar_emotion_users (emotion : String) (now : Nat) (db : DB) : List Nat :=
  (db.facial_expressions.filter
    (fun fe => fe.emotion == emotion && isRecent now fe.created_at)).map (·.user_id)

/-- The `suggestions_query` base: not the requester, not already followed
(the `if following_ids:` guard skips the `notin_` filter when the list is
empty), active. -/
def suggestions_base (cu : User) (db : DB) : List User :=
  let following_ids :=
    (db.follows.filter (fun f => f.follower_id == cu.id)).map (·.following_id)
  let q0 := db.users.filter (fun u => u.id != cu.id)
  let q1 :=
    if following_ids.isEmpty then q0
    else q0.filter (fun u => !(following_ids.contains u.id))
  q1.filter (fun u => u.is_active)

/-- The `emotion_based_suggestions` query of `get_user_suggestions`: base
candidates with a recent expression of the requester's emotion, newest
users first, at most `limit` of them. -/
def suggestions_emotion_based (limit : Nat) (cu : User) (now : Nat) (db : DB)
    (emotion : String) : List User :=
  (sortByCreatedDesc (·.created_at)
    ((suggestions_base cu db).filter
      (fun u => (similar_emotion_users emotion now db).contains u.id))).take limit

/-- `GET /suggestions/for-you` (`app/api/users.py`, `get_user_suggestions`):
the `suggestions` row list before response formatting (the formatting step
maps each row to a response dict, preserving order and ids). -/
def get_user_suggestions (limit : Nat) (cu : User) (now : Nat) (db : DB) : List User :=
  let base := suggestions_base cu db
  match recent_expression cu now db with
  | some expr =>
    let emotion_based := suggestions_emotion_based limit cu now db expr.emotion
    if emotion_based.length < limit then
      let remaining := limit - emotion_based.length
      let other :=
        (sortByCreatedDesc (·.created_at)
          (base.filter (fun u => !((emotion_based.map (·.id)).contains u.id)))).take remaining
      emotion_based ++ other
    else
      emotion_based
  | none =>
    (sortByCreatedDesc (·.created_at) base).take limit

/-- A user row used by the concrete witnesses. -/
def alice : User := { id := 1, firstname := "Alice", lastname := "Martin" }

/-- A second user row used by the concrete witnesses. -/
def bob : User := { id := 2, firstname := "Bob", lastname := "Durand" }

/-- A tweet of `alice` used by the concrete witnesses. -/
def tweet1 : Tweet := { id := 1, user_id := 1, content := "hello" }

/-- State for the C3 witness: `bob` already likes tweet 1. -/
def exDb3 : DB := { users := [alice, bob], tweets := [tweet1], likes := [⟨2, 1⟩] }

/-- State for the C4 witness: a `Like` row exists while the counter is 0. -/
def exDb4 : DB := { users := [alice, bob], tweets := [tweet1], likes := [⟨2, 1⟩] }

/-- State for the C5 witness. -/
def exDb5 : DB := { users := [alice, bob], tweets := [tweet1], nextTweetId := 2 }

/-- State for the C2 counterexample: tweet 1 belongs to `alice`, `bob` has
not bookmarked it. -/
def exDb2 : DB := { users := [alice, bob], tweets := [tweet1] }

/-- State for the C2 witness: tweet 1 is `alice`'s, `bob` has no edges
yet. -/
def exDb2w : DB := { users := [alice, bob], tweets := [tweet1] }

/-- State for the C7 counterexample. -/
def exDb7 : DB := { users := [alice, bob], tweets := [tweet1] }

/-- State for the C7 witness: tweet 2 does not exist, `bob` already
follows nobody but tweet 1 exists and is already liked by `bob`. -/
def exDb7w : DB := { users := [alice, bob], tweets := [tweet1], likes := [⟨2, 1⟩] }

/-- State for the C8 witness: `bob` likes `alice`'s tweet. -/
def exDb8 : DB := { users := [alice, bob], tweets := [tweet1], likes := [⟨2, 1⟩] }

/-- The response row `GET /tweets` produces for `bob` on `exDb8`. -/
def exResp8 : TweetResponse :=
  { id := 1, user_id := 1, content := "hello", image_url := none, video_url := none,
    likes_count := 0, retweets_count := 0, replies_count := 0, author := some alice,
    is_liked := true, is_retweeted := false, is_bookmarked := false }

/-- The response row `GET /tweets` produces for an unauthenticated viewer
on `exDb8`. -/
def exResp8n : TweetResponse := { exResp8 with is_liked := false }

/-- Kwargs for the C10 witness: the caller tries to overwrite `password`
and `id`, sets `firstname`, passes a `None` bio and an unknown
`display_name` key. -/
def exKwargs : List (String × Option AttrVal) :=
  [("password", some (.str "h4cked")), ("id", some (.int 99)),
   ("firstname", some (.str "Robert")), ("bio", none),
   ("display_name", some (.str "Bobby"))]

/-- Expected updated row for the C10 witness. -/
def exBob1 : User := { bob with firstname := "Robert" }

/-- State for the C10 witness. -/
def exDb10 : DB := { users := [alice, bob] }

/-- Expected state after the C10 witness update. -/
def exDb10u : DB := { exDb10 with users := [alice, exBob1] }

/-- `count(Like where tweet_id = tid)`. -/
def countLikes (likes : List Like) (tid : Nat) : Nat :=
  likes.countP (fun l => l.tweet_id == tid)

/-- The spec invariant for the tweet with id `tid`: its stored
`likes_count` equals the number of `Like` rows pointing at it. -/
def likesInvariant (db : DB) (tid : Nat) : Prop :=
  ∀ t ∈ db.tweets, t.id = tid → t.likes_count = (countLikes db.likes tid : Int)

/-- A like or unlike request (actor and target tweet id). -/
inductive LUOp where
  | like (cu : User) (tweet_id : Nat)
  | unlike (cu : User) (tweet_id : Nat)

/-- The state after one like/unlike request; a request that raises an
`HTTPException` has raised it before mutating anything, so it leaves the
state unchanged. -/
def applyLU : LUOp → DB → DB
  | .like cu tid, db => (like_tweet cu tid db).1
  | .unlike cu tid, db => (unlike_tweet cu tid db).1

/-- The state after a sequence of like/unlike requests. -/
def runLU (ops : List LUOp) (db : DB) : DB :=
  ops.foldl (fun db op => applyLU op db) db

/-- State for the C1 witness. -/
def exDb1 : DB := { users := [alice, bob], tweets := [tweet1] }

/-- Operation sequence for the C1 witness: two successful likes, one
successful unlike, then one failing unlike. -/
def exOps1 : List LUOp := [.like bob 1, .like alice 1, .unlike bob 1, .unlike bob 1]

/-- Users for the C9 witness. -/
def u9a : User := { id := 1, firstname := "A", created_at := 10 }

/-- C9 witness user sharing the requester's emotion. -/
def u9b : User := { id := 2, firstname := "B", created_at := 20 }

/-- C9 witness padding candidate. -/
def u9c : User := { id := 3, firstname := "C", created_at := 30 }

/-- C9 witness user already followed by the requester. -/
def u9d : User := { id := 4, firstname := "D", created_at := 40 }

/-- C9 witness inactive user. -/
def u9e : User := { id := 5, firstname := "E", is_active := false, created_at := 50 }

/-- State for the C9 witness. -/
def exDb9 : DB :=
  { users := [u9a, u9b, u9c, u9d, u9e],
    follows := [⟨1, 4⟩],
    facial_expressions :=
      [⟨1, none, "joy", 100⟩, ⟨2, none, "joy", 90⟩, ⟨3, none, "sadness", 95⟩] }

/-! ### Theorems -/

lemma like_tweet_eq_of_no_tweet (cu : User) (tid : Nat) (db : DB)
    (h : db.tweets.find? (fun t => t.id == tid) = none) :
    like_tweet cu tid db = (db, some ⟨404, "Tweet not found"⟩) := by
  simp [like_tweet, h]

lemma like_tweet_eq_of_dup (cu : User) (tid : Nat) (db : DB) (tweet : Tweet) (l0 : Like)
    (h : db.tweets.find? (fun t => t.id == tid) = some tweet)
    (h2 : db.likes.find? (fun l => l.user_id == cu.id && l.tweet_id == tid) = some l0) :
    like_tweet cu tid db = (db, some ⟨400, "Already liked"⟩) := by
  simp [like_tweet, h, h2]

lemma like_tweet_eq_of_success (cu : User) (tid : Nat) (db : DB) (tweet : Tweet)
    (h : db.tweets.find? (fun t => t.id == tid) = some tweet)
    (h2 : db.likes.find? (fun l => l.user_id == cu.id && l.tweet_id == tid) = none) :
    like_tweet cu tid db =
      ({ db with
          likes := db.likes ++ [⟨cu.id, tid⟩],
          tweets := updateFirstTweet db.tweets tid
            (fun t => { t with likes_count := t.likes_count + 1 }),
          notifications := db.notifications ++
            (if tweet.user_id ≠ cu.id then
              [⟨tweet.user_id, "like", some cu.id, some tweet.id,
                some (cu.firstname ++ " a aimé votre tweet")⟩]
             else []) }, none) := by
  simp only [like_tweet, h, h2]
  split <;> simp

lemma unlike_tweet_eq_of_no_like (cu : User) (tid : Nat) (db : DB)
    (h : db.likes.find? (fun l => l.user_id == cu.id && l.tweet_id == tid) = none) :
    unlike_tweet cu tid db = (db, some ⟨404, "Like not found"⟩) := by
  simp [unlike_tweet, h]

lemma unlike_tweet_eq_of_success (cu : User) (tid : Nat) (db : DB) (l0 : Like) (t : Tweet)
    (hl : db.likes.find? (fun l => l.user_id == cu.id && l.tweet_id == tid) = some l0)
    (ht : db.tweets.find? (fun t => t.id == tid) = some t) :
    unlike_tweet cu tid db =
      ({ db with
          tweets := updateFirstTweet db.tweets tid
            (fun t => { t with likes_count := max 0 (t.likes_count - 1) }),
          likes := db.likes.eraseP
            (fun l => l.user_id == cu.id && l.tweet_id == tid) }, none) := by
  simp [unlike_tweet, hl, ht]

lemma unlike_tweet_eq_of_success_no_tweet (cu : User) (tid : Nat) (db : DB) (l0 : Like)
    (hl : db.likes.find? (fun l => l.user_id == cu.id && l.tweet_id == tid) = some l0)
    (ht : db.tweets.find? (fun t => t.id == tid) = none) :
    unlike_tweet cu tid db =
      ({ db with
          likes := db.likes.eraseP
            (fun l => l.user_id == cu.id && l.tweet_id == tid) }, none) := by
  simp [unlike_tweet, hl, ht]

lemma bookmark_tweet_eq_of_success (cu : User) (tid : Nat) (db : DB) (tweet : Tweet)
    (h : db.tweets.find? (fun t => t.id == tid) = some tweet)
    (h2 : db.bookmarks.find? (fun b => b.user_id == cu.id && b.tweet_id == tid) = none) :
    bookmark_tweet cu tid db =
      ({ db with bookmarks := db.bookmarks ++ [⟨cu.id, tid⟩] }, none) := by
  simp [bookmark_tweet, h, h2]

lemma retweet_eq_of_success (cu : User) (tid : Nat) (c : Option String) (db : DB)
    (tweet : Tweet)
    (h : db.tweets.find? (fun t => t.id == tid) = some tweet)
    (h2 : db.retweets.find?
      (fun r => r.user_id == cu.id && r.original_tweet_id == tid) = none) :
    retweet cu tid c db =
      ({ db with
          retweets := db.retweets ++ [⟨cu.id, tid, c⟩],
          tweets := updateFirstTweet db.tweets tid
            (fun t => { t with retweets_count := t.retweets_count + 1 }),
          notifications := db.notifications ++
            (if tweet.user_id ≠ cu.id then
              [⟨tweet.user_id, "retweet", some cu.id, some tweet.id,
                some (cu.firstname ++ " a retweeté votre tweet")⟩]
             else []) }, none) := by
  simp only [retweet, h, h2]
  split <;> simp

lemma follow_user_eq_of_success (cu : User) (fid : Nat) (db : DB) (target : User)
    (h : db.users.find? (fun u => u.id == fid) = some target)
    (hne : fid ≠ cu.id)
    (h2 : db.follows.find?
      (fun f => f.follower_id == cu.id && f.following_id == fid) = none) :
    follow_user cu fid db =
      ({ db with
          follows := db.follows ++ [⟨cu.id, fid⟩],
          notifications := db.notifications ++
            [⟨fid, "follow", some cu.id, none,
              some (cu.firstname ++ " " ++ cu.lastname ++ " a commencé à vous suivre")⟩] },
       none) := by
  simp [follow_user, h, hne, h2]

lemma find?_updateFirstTweet (l : List Tweet) (tid : Nat) (f : Tweet → Tweet)
    (hf : ∀ t, (f t).id = t.id) :
    (updateFirstTweet l tid f).find? (fun t => t.id == tid) =
      (l.find? (fun t => t.id == tid)).map f := by
  induction l with
  | nil => simp [updateFirstTweet]
  | cons t ts ih =>
    by_cases h : t.id = tid
    · simp [updateFirstTweet, h, List.find?_cons, hf]
    · simp [updateFirstTweet, h, List.find?_cons, ih]

/-- C6: following oneself fails (with 404 when the requester's row is
absent, 400 otherwise) and leaves the state — in particular the `follows`
and `notifications` tables — unchanged, whatever the current follow
state is. -/
theorem follow_self_always_fails (cu : User) (db : DB) :
    (follow_user cu cu.id db).2.isSome ∧ (follow_user cu cu.id db).1 = db := by
  unfold follow_user
  cases h : db.users.find? (fun u => u.id == cu.id) <;> simp

/-- C3: when the tweet exists and a `Like` row for (user, tweet) is already
present, a second `like` call returns a 400 Conflict error to the caller
and changes nothing; when no `Like` row exists, `unlike` returns a 404
NotFound error to the caller and changes nothing. -/
theorem duplicate_like_conflict_and_unlike_notfound :
    (∀ (cu : User) (tid : Nat) (db : DB) (tweet : Tweet) (l0 : Like),
      db.tweets.find? (fun t => t.id == tid) = some tweet →
      db.likes.find? (fun l => l.user_id == cu.id && l.tweet_id == tid) = some l0 →
      ∃ e : HError, like_tweet cu tid db = (db, some e) ∧ e.kind = .conflict) ∧
    (∀ (cu : User) (tid : Nat) (db : DB),
      db.likes.find? (fun l => l.user_id == cu.id && l.tweet_id == tid) = none →
      ∃ e : HError, unlike_tweet cu tid db = (db, some e) ∧ e.kind = .notFound) := by
  constructor
  · intro cu tid db tweet l0 h h2
    exact ⟨⟨400, "Already liked"⟩, like_tweet_eq_of_dup cu tid db tweet l0 h h2, rfl⟩
  · intro cu tid db h
    exact ⟨⟨404, "Like not found"⟩, unlike_tweet_eq_of_no_like cu tid db h, rfl⟩

/-- C4: a successful `unlike` on a tweet whose `likes_count` is already 0
returns no error, removes the first matching `Like` row, and leaves the
counter at 0 (the `max(0, ...)` clamp never goes negative). -/
theorem unlike_with_zero_counter (cu : User) (tid : Nat) (db : DB) (t : Tweet) (l0 : Like)
    (ht : db.tweets.find? (fun tw => tw.id == tid) = some t)
    (h0 : t.likes_count = 0)
    (hl : db.likes.find? (fun l => l.user_id == cu.id && l.tweet_id == tid) = some l0) :
    (unlike_tweet cu tid db).2 = none ∧
    ((unlike_tweet cu tid db).1.tweets.find? (fun tw => tw.id == tid)).map (·.likes_count)
      = some 0 ∧
    (unlike_tweet cu tid db).1.likes =
      db.likes.eraseP (fun l => l.user_id == cu.id && l.tweet_id == tid) := by
  rw [unlike_tweet_eq_of_success cu tid db l0 t hl ht]
  refine ⟨rfl, ?_, rfl⟩
  rw [show ((({ db with
        tweets := updateFirstTweet db.tweets tid
          (fun t => { t with likes_count := max 0 (t.likes_count - 1) }),
        likes := db.likes.eraseP
          (fun l => l.user_id == cu.id && l.tweet_id == tid) } : DB), (none : Option HError)).1.tweets)
      = updateFirstTweet db.tweets tid
          (fun t => { t with likes_count := max 0 (t.likes_count - 1) }) from rfl,
    find?_updateFirstTweet db.tweets tid
      (fun t => { t with likes_count := max 0 (t.likes_count - 1) }) (fun _ => rfl), ht]
  simp [h0]

theorem duplicate_like_conflict_and_unlike_notfound_witness :
    exDb3.tweets.find? (fun t => t.id == 1) = some tweet1 ∧
    exDb3.likes.find? (fun l => l.user_id == bob.id && l.tweet_id == 1) = some ⟨2, 1⟩ ∧
    exDb3.likes.find? (fun l => l.user_id == alice.id && l.tweet_id == 1) = none ∧
    (∃ e : HError, like_tweet bob 1 exDb3 = (exDb3, some e) ∧ e.kind = .conflict) ∧
    (∃ e : HError, unlike_tweet alice 1 exDb3 = (exDb3, some e) ∧ e.kind = .notFound) :=
  ⟨by decide, by decide, by decide,
   duplicate_like_conflict_and_unlike_notfound.1 bob 1 exDb3 tweet1 ⟨2, 1⟩
     (by decide) (by decide),
   duplicate_like_conflict_and_unlike_notfound.2 alice 1 exDb3 (by decide)⟩

theorem unlike_with_zero_counter_witness :
    exDb4.tweets.find? (fun tw => tw.id == 1) = some tweet1 ∧
    tweet1.likes_count = 0 ∧
    exDb4.likes.find? (fun l => l.user_id == bob.id && l.tweet_id == 1) = some ⟨2, 1⟩ ∧
    ((unlike_tweet bob 1 exDb4).2 = none ∧
     ((unlike_tweet bob 1 exDb4).1.tweets.find? (fun tw => tw.id == 1)).map (·.likes_count)
       = some 0 ∧
     (unlike_tweet bob 1 exDb4).1.likes =
       exDb4.likes.eraseP (fun l => l.user_id == bob.id && l.tweet_id == 1)) :=
  ⟨by decide, by decide, by decide,
   unlike_with_zero_counter bob 1 exDb4 tweet1 ⟨2, 1⟩ (by decide) (by decide) (by decide)⟩

lemma updateFirstTweet_length (l : List Tweet) (tid : Nat) (f : Tweet → Tweet) :
    (updateFirstTweet l tid f).length = l.length := by
  induction l with
  | nil => rfl
  | cons t ts ih =>
    by_cases h : t.id = tid <;> simp [updateFirstTweet, h, ih]

lemma find?_append_left {α : Type} (l₁ l₂ : List α) (p : α → Bool) (a : α)
    (h : l₁.find? p = some a) : (l₁ ++ l₂).find? p = some a := by
  induction l₁ with
  | nil => simp at h
  | cons x xs ih =>
    cases hx : p x with
    | true =>
      rw [List.find?_cons_of_pos _ hx] at h
      rw [List.cons_append, List.find?_cons_of_pos _ hx]
      exact h
    | false =>
      rw [List.find?_cons_of_neg _ (by simp [hx])] at h
      rw [List.cons_append, List.find?_cons_of_neg _ (by simp [hx])]
      exact ih h

lemma reply_to_tweet_eq_of_success (cu : User) (pid : Nat) (content : String) (now : Nat)
    (db : DB) (parent : Tweet)
    (hp : db.tweets.find? (fun t => t.id == pid) = some parent) :
    reply_to_tweet cu pid content now db =
      ({ db with
          tweets := updateFirstTweet
            (db.tweets ++
              [{ id := db.nextTweetId, user_id := cu.id, content := content,
                 created_at := now }]) pid
            (fun t => { t with replies_count := t.replies_count + 1 }),
          replies := db.replies ++ [⟨db.nextTweetId, pid⟩],
          notifications := db.notifications ++
            (if parent.user_id ≠ cu.id then
              [⟨parent.user_id, "reply", some cu.id, some parent.id,
                some (cu.firstname ++ " a répondu à votre tweet")⟩]
             else []),
          nextTweetId := db.nextTweetId + 1 }, none) := by
  simp only [reply_to_tweet, hp]
  split <;> simp

/-- C5: a successful reply adds exactly one `Tweet` row and exactly one
`Reply` row linking the fresh tweet id to the parent, bumps the parent's
`replies_count` by exactly 1, and appends exactly one `reply` notification
when the replier is not the parent's author and none when they are. -/
theorem reply_effects (cu : User) (pid : Nat) (content : String) (now : Nat) (db : DB)
    (parent : Tweet)
    (hp : db.tweets.find? (fun t => t.id == pid) = some parent) :
    (reply_to_tweet cu pid content now db).2 = none ∧
    (reply_to_tweet cu pid content now db).1.tweets.length = db.tweets.length + 1 ∧
    (reply_to_tweet cu pid content now db).1.replies =
      db.replies ++ [⟨db.nextTweetId, pid⟩] ∧
    ((reply_to_tweet cu pid content now db).1.tweets.find?
        (fun t => t.id == pid)).map (·.replies_count) = some (parent.replies_count + 1) ∧
    (reply_to_tweet cu pid content now db).1.notifications = db.notifications ++
      (if parent.user_id ≠ cu.id then
        [⟨parent.user_id, "reply", some cu.id, some parent.id,
          some (cu.firstname ++ " a répondu à votre tweet")⟩]
       else []) := by
  rw [reply_to_tweet_eq_of_success cu pid content now db parent hp]
  refine ⟨rfl, ?_, rfl, ?_, rfl⟩
  · show (updateFirstTweet _ _ _).length = _
    simp [updateFirstTweet_length]
  · have hfind := find?_updateFirstTweet
      (db.tweets ++
        [{ id := db.nextTweetId, user_id := cu.id, content := content,
           created_at := now }])
      pid (fun t => { t with replies_count := t.replies_count + 1 }) (fun _ => rfl)
    show ((updateFirstTweet (db.tweets ++ _) pid
      (fun t => { t with replies_count := t.replies_count + 1 })).find?
        (fun t => t.id == pid)).map (·.replies_count) = _
    rw [hfind, find?_append_left _ _ _ parent hp]
    rfl

theorem reply_effects_witness :
    exDb5.tweets.find? (fun t => t.id == 1) = some tweet1 ∧
    ((reply_to_tweet bob 1 "hi" 50 exDb5).2 = none ∧
     (reply_to_tweet bob 1 "hi" 50 exDb5).1.tweets.length = exDb5.tweets.length + 1 ∧
     (reply_to_tweet bob 1 "hi" 50 exDb5).1.replies =
       exDb5.replies ++ [⟨exDb5.nextTweetId, 1⟩] ∧
     ((reply_to_tweet bob 1 "hi" 50 exDb5).1.tweets.find?
         (fun t => t.id == 1)).map (·.replies_count) = some (tweet1.replies_count + 1) ∧
     (reply_to_tweet bob 1 "hi" 50 exDb5).1.notifications = exDb5.notifications ++
       (if tweet1.user_id ≠ bob.id then
         [⟨tweet1.user_id, "reply", some bob.id, some tweet1.id,
           some (bob.firstname ++ " a répondu à votre tweet")⟩]
        else [])) :=
  ⟨by decide, reply_effects bob 1 "hi" 50 exDb5 tweet1 (by decide)⟩

/-- C2 counterexample: `bob` bookmarks `alice`'s tweet; the operation
succeeds and inserts the edge row, the actor is not the tweet's owner, yet
no Notification row is appended and no counter is adjusted — refuting the
claim that every create-edge operation, the bookmark operation in
particular, adjusts the owning tweet's counter by +1 and notifies the
owner. -/
theorem bookmark_no_notification_counterexample :
    (bookmark_tweet bob 1 exDb2).2 = none ∧
    (bookmark_tweet bob 1 exDb2).1.bookmarks = [⟨bob.id, 1⟩] ∧
    tweet1.user_id ≠ bob.id ∧
    (bookmark_tweet bob 1 exDb2).1.notifications = [] ∧
    (bookmark_tweet bob 1 exDb2).1.tweets = exDb2.tweets := by
  decide

/-- C2 (amended): when the target exists and no edge for (actor, target)
exists, `like` and `retweet` insert the edge row, bump the owning tweet's
counter by +1 and append exactly one notification when the actor is not
the tweet's owner (none otherwise); `follow` inserts the edge row and
appends exactly one notification to the target user (no tweet counter is
involved); `bookmark` inserts only the `Bookmark` row — it adjusts no
counter and appends no notification. -/
theorem create_edge_operations_effects :
    (∀ (cu : User) (tid : Nat) (db : DB) (tweet : Tweet),
      db.tweets.find? (fun t => t.id == tid) = some tweet →
      db.likes.find? (fun l => l.user_id == cu.id && l.tweet_id == tid) = none →
      (like_tweet cu tid db).2 = none ∧
      (like_tweet cu tid db).1.likes = db.likes ++ [⟨cu.id, tid⟩] ∧
      ((like_tweet cu tid db).1.tweets.find? (fun t => t.id == tid)).map (·.likes_count)
        = some (tweet.likes_count + 1) ∧
      (like_tweet cu tid db).1.notifications = db.notifications ++
        (if tweet.user_id ≠ cu.id then
          [⟨tweet.user_id, "like", some cu.id, some tweet.id,
            some (cu.firstname ++ " a aimé votre tweet")⟩]
         else [])) ∧
    (∀ (cu : User) (tid : Nat) (c : Option String) (db : DB) (tweet : Tweet),
      db.tweets.find? (fun t => t.id == tid) = some tweet →
      db.retweets.find? (fun r => r.user_id == cu.id && r.original_tweet_id == tid) = none →
      (retweet cu tid c db).2 = none ∧
      (retweet cu tid c db).1.retweets = db.retweets ++ [⟨cu.id, tid, c⟩] ∧
      ((retweet cu tid c db).1.tweets.find? (fun t => t.id == tid)).map (·.retweets_count)
        = some (tweet.retweets_count + 1) ∧
      (retweet cu tid c db).1.notifications = db.notifications ++
        (if tweet.user_id ≠ cu.id then
          [⟨tweet.user_id, "retweet", some cu.id, some tweet.id,
            some (cu.firstname ++ " a retweeté votre tweet")⟩]
         else [])) ∧
    (∀ (cu : User) (fid : Nat) (db : DB) (target : User),
      db.users.find? (fun u => u.id == fid) = some target →
      fid ≠ cu.id →
      db.follows.find? (fun f => f.follower_id == cu.id && f.following_id == fid) = none →
      (follow_user cu fid db).2 = none ∧
      (follow_user cu fid db).1.follows = db.follows ++ [⟨cu.id, fid⟩] ∧
      (follow_user cu fid db).1.notifications = db.notifications ++
        [⟨fid, "follow", some cu.id, none,
          some (cu.firstname ++ " " ++ cu.lastname ++ " a commencé à vous suivre")⟩]) ∧
    (∀ (cu : User) (tid : Nat) (db : DB) (tweet : Tweet),
      db.tweets.find? (fun t => t.id == tid) = some tweet →
      db.bookmarks.find? (fun b => b.user_id == cu.id && b.tweet_id == tid) = none →
      bookmark_tweet cu tid db =
        ({ db with bookmarks := db.bookmarks ++ [⟨cu.id, tid⟩] }, none)) := by
  refine ⟨?_, ?_, ?_, ?_⟩
  · intro cu tid db tweet h h2
    rw [like_tweet_eq_of_success cu tid db tweet h h2]
    refine ⟨rfl, rfl, ?_, rfl⟩
    have hfind := find?_updateFirstTweet db.tweets tid
      (fun t => { t with likes_count := t.likes_count + 1 }) (fun _ => rfl)
    show ((updateFirstTweet db.tweets tid
      (fun t => { t with likes_count := t.likes_count + 1 })).find?
        (fun t => t.id == tid)).map (·.likes_count) = _
    rw [hfind, h]
    rfl
  · intro cu tid c db tweet h h2
    rw [retweet_eq_of_success cu tid c db tweet h h2]
    refine ⟨rfl, rfl, ?_, rfl⟩
    have hfind := find?_updateFirstTweet db.tweets tid
      (fun t => { t with retweets_count := t.retweets_count + 1 }) (fun _ => rfl)
    show ((updateFirstTweet db.tweets tid
      (fun t => { t with retweets_count := t.retweets_count + 1 })).find?
        (fun t => t.id == tid)).map (·.retweets_count) = _
    rw [hfind, h]
    rfl
  · intro cu fid db target h hne h2
    rw [follow_user_eq_of_success cu fid db target h hne h2]
    exact ⟨rfl, rfl, rfl⟩
  · intro cu tid db tweet h h2
    exact bookmark_tweet_eq_of_success cu tid db tweet h h2

theorem create_edge_operations_effects_witness :
    exDb2w.tweets.find? (fun t => t.id == 1) = some tweet1 ∧
    exDb2w.likes.find? (fun l => l.user_id == bob.id && l.tweet_id == 1) = none ∧
    exDb2w.retweets.find?
      (fun r => r.user_id == bob.id && r.original_tweet_id == 1) = none ∧
    exDb2w.users.find? (fun u => u.id == 1) = some alice ∧
    (1 : Nat) ≠ bob.id ∧
    exDb2w.follows.find?
      (fun f => f.follower_id == bob.id && f.following_id == 1) = none ∧
    exDb2w.bookmarks.find? (fun b => b.user_id == bob.id && b.tweet_id == 1) = none ∧
    ((like_tweet bob 1 exDb2w).2 = none ∧
     (like_tweet bob 1 exDb2w).1.likes = exDb2w.likes ++ [⟨bob.id, 1⟩] ∧
     ((like_tweet bob 1 exDb2w).1.tweets.find?
         (fun t => t.id == 1)).map (·.likes_count) = some (tweet1.likes_count + 1) ∧
     (like_tweet bob 1 exDb2w).1.notifications = exDb2w.notifications ++
       (if tweet1.user_id ≠ bob.id then
         [⟨tweet1.user_id, "like", some bob.id, some tweet1.id,
           some (bob.firstname ++ " a aimé votre tweet")⟩]
        else [])) ∧
    ((retweet bob 1 none exDb2w).2 = none) ∧
    ((follow_user bob 1 exDb2w).2 = none ∧
     (follow_user bob 1 exDb2w).1.follows = exDb2w.follows ++ [⟨bob.id, 1⟩] ∧
     (follow_user bob 1 exDb2w).1.notifications = exDb2w.notifications ++
       [⟨1, "follow", some bob.id, none,
         some (bob.firstname ++ " " ++ bob.lastname ++ " a commencé à vous suivre")⟩]) ∧
    bookmark_tweet bob 1 exDb2w =
      ({ exDb2w with bookmarks := exDb2w.bookmarks ++ [⟨bob.id, 1⟩] }, none) :=
  ⟨by decide, by decide, by decide, by decide, by decide, by decide, by decide,
   create_edge_operations_effects.1 bob 1 exDb2w tweet1 (by decide) (by decide),
   (create_edge_operations_effects.2.1 bob 1 none exDb2w tweet1 (by decide) (by decide)).1,
   create_edge_operations_effects.2.2.1 bob 1 exDb2w alice (by decide) (by decide) (by decide),
   create_edge_operations_effects.2.2.2 bob 1 exDb2w tweet1 (by decide) (by decide)⟩

lemma like_tweet_error_unchanged (cu : User) (tid : Nat) (db : DB) (e : HError)
    (h : (like_tweet cu tid db).2 = some e) : (like_tweet cu tid db).1 = db := by
  cases h1 : db.tweets.find? (fun t => t.id == tid) with
  | none => rw [like_tweet_eq_of_no_tweet cu tid db h1]
  | some tweet =>
    cases h2 : db.likes.find? (fun l => l.user_id == cu.id && l.tweet_id == tid) with
    | some l0 => rw [like_tweet_eq_of_dup cu tid db tweet l0 h1 h2]
    | none =>
      rw [like_tweet_eq_of_success cu tid db tweet h1 h2] at h
      simp at h

lemma retweet_error_unchanged (cu : User) (tid : Nat) (c : Option String) (db : DB)
    (e : HError) (h : (retweet cu tid c db).2 = some e) : (retweet cu tid c db).1 = db := by
  cases h1 : db.tweets.find? (fun t => t.id == tid) with
  | none => simp [retweet, h1]
  | some tweet =>
    cases h2 : db.retweets.find?
        (fun r => r.user_id == cu.id && r.original_tweet_id == tid) with
    | some r0 => simp [retweet, h1, h2]
    | none =>
      rw [retweet_eq_of_success cu tid c db tweet h1 h2] at h
      simp at h

lemma follow_user_error_unchanged (cu : User) (fid : Nat) (db : DB) (e : HError)
    (h : (follow_user cu fid db).2 = some e) : (follow_user cu fid db).1 = db := by
  cases h1 : db.users.find? (fun u => u.id == fid) with
  | none => simp [follow_user, h1]
  | some target =>
    by_cases hself : fid = cu.id
    · subst hself
      simp [follow_user, h1]
    · cases h2 : db.follows.find?
          (fun f => f.follower_id == cu.id && f.following_id == fid) with
      | some f0 => simp [follow_user, h1, hself, h2]
      | none =>
        rw [follow_user_eq_of_success cu fid db target h1 hself h2] at h
        simp at h

lemma bookmark_tweet_error_unchanged (cu : User) (tid : Nat) (db : DB) (e : HError)
    (h : (bookmark_tweet cu tid db).2 = some e) : (bookmark_tweet cu tid db).1 = db := by
  cases h1 : db.tweets.find? (fun t => t.id == tid) with
  | none => simp [bookmark_tweet, h1]
  | some tweet =>
    cases h2 : db.bookmarks.find?
        (fun b => b.user_id == cu.id && b.tweet_id == tid) with
    | some b0 => simp [bookmark_tweet, h1, h2]
    | none =>
      rw [bookmark_tweet_eq_of_success cu tid db tweet h1 h2] at h
      simp at h

/-- C7 counterexample: a successful bookmark applies a strict subset of the
effect set the claim ascribes to every create-edge operation — the edge
row is inserted, yet the owning tweet's counters are untouched and no
notification is appended even though the actor is not the owner. -/
theorem bookmark_strict_subset_counterexample :
    (bookmark_tweet bob 1 exDb7).2 = none ∧
    (bookmark_tweet bob 1 exDb7).1.bookmarks.length = exDb7.bookmarks.length + 1 ∧
    tweet1.user_id ≠ bob.id ∧
    (bookmark_tweet bob 1 exDb7).1.tweets = exDb7.tweets ∧
    (bookmark_tweet bob 1 exDb7).1.notifications.length = exDb7.notifications.length := by
  decide

/-- C7 (amended): each create-edge operation is all-or-nothing — whenever
it returns an error (absent target, duplicate edge, self-follow) the state
is returned unchanged, and on success the operation's whole effect set
(stated by `create_edge_operations_effects`: edge plus counter plus
conditional notification for like/retweet, edge plus notification for
follow, edge only for bookmark) takes effect as the single returned
state. -/
theorem create_edge_all_or_nothing :
    (∀ (cu : User) (tid : Nat) (db : DB) (e : HError),
      (like_tweet cu tid db).2 = some e → (like_tweet cu tid db).1 = db) ∧
    (∀ (cu : User) (tid : Nat) (c : Option String) (db : DB) (e : HError),
      (retweet cu tid c db).2 = some e → (retweet cu tid c db).1 = db) ∧
    (∀ (cu : User) (fid : Nat) (db : DB) (e : HError),
      (follow_user cu fid db).2 = some e → (follow_user cu fid db).1 = db) ∧
    (∀ (cu : User) (tid : Nat) (db : DB) (e : HError),
      (bookmark_tweet cu tid db).2 = some e → (bookmark_tweet cu tid db).1 = db) ∧
    (∀ (cu : User) (tid : Nat) (db : DB) (tweet : Tweet),
      db.tweets.find? (fun t => t.id == tid) = some tweet →
      db.likes.find? (fun l => l.user_id == cu.id && l.tweet_id == tid) = none →
      like_tweet cu tid db =
        ({ db with
            likes := db.likes ++ [⟨cu.id, tid⟩],
            tweets := updateFirstTweet db.tweets tid
              (fun t => { t with likes_count := t.likes_count + 1 }),
            notifications := db.notifications ++
              (if tweet.user_id ≠ cu.id then
                [⟨tweet.user_id, "like", some cu.id, some tweet.id,
                  some (cu.firstname ++ " a aimé votre tweet")⟩]
               else []) }, none)) ∧
    (∀ (cu : User) (tid : Nat) (db : DB) (tweet : Tweet),
      db.tweets.find? (fun t => t.id == tid) = some tweet →
      db.bookmarks.find? (fun b => b.user_id == cu.id && b.tweet_id == tid) = none →
      bookmark_tweet cu tid db =
        ({ db with bookmarks := db.bookmarks ++ [⟨cu.id, tid⟩] }, none)) := by
  exact ⟨like_tweet_error_unchanged, retweet_error_unchanged,
    follow_user_error_unchanged, bookmark_tweet_error_unchanged,
    fun cu tid db tweet h h2 => like_tweet_eq_of_success cu tid db tweet h h2,
    fun cu tid db tweet h h2 => bookmark_tweet_eq_of_success cu tid db tweet h h2⟩

theorem create_edge_all_or_nothing_witness :
    (like_tweet bob 2 exDb7w).2 = some ⟨404, "Tweet not found"⟩ ∧
    ((like_tweet bob 2 exDb7w).1 = exDb7w) ∧
    (like_tweet bob 1 exDb7w).2 = some ⟨400, "Already liked"⟩ ∧
    ((like_tweet bob 1 exDb7w).1 = exDb7w) ∧
    (retweet bob 2 none exDb7w).2 = some ⟨404, "Tweet not found"⟩ ∧
    ((retweet bob 2 none exDb7w).1 = exDb7w) ∧
    (follow_user bob bob.id exDb7w).2 = some ⟨400, "Cannot follow yourself"⟩ ∧
    ((follow_user bob bob.id exDb7w).1 = exDb7w) ∧
    (bookmark_tweet bob 2 exDb7w).2 = some ⟨404, "Tweet not found"⟩ ∧
    ((bookmark_tweet bob 2 exDb7w).1 = exDb7w) ∧
    exDb7w.tweets.find? (fun t => t.id == 1) = some tweet1 ∧
    exDb7w.bookmarks.find? (fun b => b.user_id == bob.id && b.tweet_id == 1) = none ∧
    bookmark_tweet bob 1 exDb7w =
      ({ exDb7w with bookmarks := exDb7w.bookmarks ++ [⟨bob.id, 1⟩] }, none) :=
  ⟨by decide, create_edge_all_or_nothing.1 bob 2 exDb7w ⟨404, "Tweet not found"⟩ (by decide),
   by decide, create_edge_all_or_nothing.1 bob 1 exDb7w ⟨400, "Already liked"⟩ (by decide),
   by decide,
   create_edge_all_or_nothing.2.1 bob 2 none exDb7w ⟨404, "Tweet not found"⟩ (by decide),
   by decide,
   create_edge_all_or_nothing.2.2.1 bob bob.id exDb7w ⟨400, "Cannot follow yourself"⟩
     (by decide),
   by decide,
   create_edge_all_or_nothing.2.2.2.1 bob 2 exDb7w ⟨404, "Tweet not found"⟩ (by decide),
   by decide, by decide,
   create_edge_all_or_nothing.2.2.2.2.2 bob 1 exDb7w tweet1 (by decide) (by decide)⟩

/-- C8: every tweet returned by `GET /tweets` carries `is_liked`,
`is_retweeted` and `is_bookmarked` flags that are true exactly when the
corresponding edge row exists for (viewer, tweet); with no authenticated
viewer the whole list is returned with all three flags false. -/
theorem tweet_flags_reflect_edges (limit offset : Nat) (db : DB) :
    (∀ (cu : User) (r : TweetResponse), r ∈ get_tweets limit offset (some cu) db →
      (r.is_liked = true ↔
        ∃ l ∈ db.likes, l.user_id = cu.id ∧ l.tweet_id = r.id) ∧
      (r.is_retweeted = true ↔
        ∃ rt ∈ db.retweets, rt.user_id = cu.id ∧ rt.original_tweet_id = r.id) ∧
      (r.is_bookmarked = true ↔
        ∃ b ∈ db.bookmarks, b.user_id = cu.id ∧ b.tweet_id = r.id)) ∧
    (∀ r : TweetResponse, r ∈ get_tweets limit offset none db →
      r.is_liked = false ∧ r.is_retweeted = false ∧ r.is_bookmarked = false) := by
  constructor
  · intro cu r hr
    simp only [get_tweets, List.mem_map] at hr
    obtain ⟨t, _, rfl⟩ := hr
    refine ⟨?_, ?_, ?_⟩ <;>
      simp [List.any_eq_true, Bool.and_eq_true, beq_iff_eq]
  · intro r hr
    simp only [get_tweets, List.mem_map] at hr
    obtain ⟨t, _, rfl⟩ := hr
    exact ⟨rfl, rfl, rfl⟩

theorem tweet_flags_reflect_edges_witness :
    exResp8 ∈ get_tweets 20 0 (some bob) exDb8 ∧
    (exResp8.is_liked = true ↔
      ∃ l ∈ exDb8.likes, l.user_id = bob.id ∧ l.tweet_id = exResp8.id) ∧
    exResp8n ∈ get_tweets 20 0 none exDb8 ∧
    (exResp8n.is_liked = false ∧ exResp8n.is_retweeted = false ∧
      exResp8n.is_bookmarked = false) :=
  ⟨by decide,
   ((tweet_flags_reflect_edges 20 0 exDb8).1 bob exResp8 (by decide)).1,
   by decide,
   (tweet_flags_reflect_edges 20 0 exDb8).2 exResp8n (by decide)⟩

lemma setUserAttr_preserves_password (u : User) (k : String) (v : AttrVal)
    (hattr : hasattrUser k = true) (hk : k ≠ "password") :
    (setUserAttr u k v).password = u.password := by
  simp only [hasattrUser, List.mem_cons, List.not_mem_nil, or_false,
    decide_eq_true_eq] at hattr
  rcases hattr with rfl | rfl | rfl | rfl | rfl | rfl | rfl | rfl | rfl | rfl | rfl <;>
    first
      | (exact absurd rfl hk)
      | (cases v <;> rfl)

lemma setUserAttr_preserves_id (u : User) (k : String) (v : AttrVal)
    (hattr : hasattrUser k = true) (hk : k ≠ "id") :
    (setUserAttr u k v).id = u.id := by
  simp only [hasattrUser, List.mem_cons, List.not_mem_nil, or_false,
    decide_eq_true_eq] at hattr
  rcases hattr with rfl | rfl | rfl | rfl | rfl | rfl | rfl | rfl | rfl | rfl | rfl <;>
    first
      | (exact absurd rfl hk)
      | (cases v <;> rfl)

lemma setUserAttr_preserves_firstname (u : User) (k : String) (v : AttrVal)
    (hattr : hasattrUser k = true) (hk : k ≠ "firstname") :
    (setUserAttr u k v).firstname = u.firstname := by
  simp only [hasattrUser, List.mem_cons, List.not_mem_nil, or_false,
    decide_eq_true_eq] at hattr
  rcases hattr with rfl | rfl | rfl | rfl | rfl | rfl | rfl | rfl | rfl | rfl | rfl <;>
    first
      | (exact absurd rfl hk)
      | (cases v <;> rfl)

lemma setUserAttr_preserves_lastname (u : User) (k : String) (v : AttrVal)
    (hattr : hasattrUser k = true) (hk : k ≠ "lastname") :
    (setUserAttr u k v).lastname = u.lastname := by
  simp only [hasattrUser, List.mem_cons, List.not_mem_nil, or_false,
    decide_eq_true_eq] at hattr
  rcases hattr with rfl | rfl | rfl | rfl | rfl | rfl | rfl | rfl | rfl | rfl | rfl <;>
    first
      | (exact absurd rfl hk)
      | (cases v <;> rfl)

lemma setUserAttr_preserves_username (u : User) (k : String) (v : AttrVal)
    (hattr : hasattrUser k = true) (hk : k ≠ "username") :
    (setUserAttr u k v).username = u.username := by
  simp only [hasattrUser, List.mem_cons, List.not_mem_nil, or_false,
    decide_eq_true_eq] at hattr
  rcases hattr with rfl | rfl | rfl | rfl | rfl | rfl | rfl | rfl | rfl | rfl | rfl <;>
    first
      | (exact absurd rfl hk)
      | (cases v <;> rfl)

lemma setUserAttr_preserves_email (u : User) (k : String) (v : AttrVal)
    (hattr : hasattrUser k = true) (hk : k ≠ "email") :
    (setUserAttr u k v).email = u.email := by
  simp only [hasattrUser, List.mem_cons, List.not_mem_nil, or_false,
    decide_eq_true_eq] at hattr
  rcases hattr with rfl | rfl | rfl | rfl | rfl | rfl | rfl | rfl | rfl | rfl | rfl <;>
    first
      | (exact absurd rfl hk)
      | (cases v <;> rfl)

lemma setUserAttr_preserves_bio (u : User) (k : String) (v : AttrVal)
    (hattr : hasattrUser k = true) (hk : k ≠ "bio") :
    (setUserAttr u k v).bio = u.bio := by
  simp only [hasattrUser, List.mem_cons, List.not_mem_nil, or_false,
    decide_eq_true_eq] at hattr
  rcases hattr with rfl | rfl | rfl | rfl | rfl | rfl | rfl | rfl | rfl | rfl | rfl <;>
    first
      | (exact absurd rfl hk)
      | (cases v <;> rfl)

lemma setUserAttr_preserves_profile_image_url (u : User) (k : String) (v : AttrVal)
    (hattr : hasattrUser k = true) (hk : k ≠ "profile_image_url") :
    (setUserAttr u k v).profile_image_url = u.profile_image_url := by
  simp only [hasattrUser, List.mem_cons, List.not_mem_nil, or_false,
    decide_eq_true_eq] at hattr
  rcases hattr with rfl | rfl | rfl | rfl | rfl | rfl | rfl | rfl | rfl | rfl | rfl <;>
    first
      | (exact absurd rfl hk)
      | (cases v <;> rfl)

lemma setUserAttr_preserves_banner_image_url (u : User) (k : String) (v : AttrVal)
    (hattr : hasattrUser k = true) (hk : k ≠ "banner_image_url") :
    (setUserAttr u k v).banner_image_url = u.banner_image_url := by
  simp only [hasattrUser, List.mem_cons, List.not_mem_nil, or_false,
    decide_eq_true_eq] at hattr
  rcases hattr with rfl | rfl | rfl | rfl | rfl | rfl | rfl | rfl | rfl | rfl | rfl <;>
    first
      | (exact absurd rfl hk)
      | (cases v <;> rfl)

lemma setUserAttr_preserves_is_active (u : User) (k : String) (v : AttrVal)
    (hattr : hasattrUser k = true) (hk : k ≠ "is_active") :
    (setUserAttr u k v).is_active = u.is_active := by
  simp only [hasattrUser, List.mem_cons, List.not_mem_nil, or_false,
    decide_eq_true_eq] at hattr
  rcases hattr with rfl | rfl | rfl | rfl | rfl | rfl | rfl | rfl | rfl | rfl | rfl <;>
    first
      | (exact absurd rfl hk)
      | (cases v <;> rfl)

lemma applyKwargs_preserves {α : Type} (g : User → α) (key : String)
    (hset : ∀ (u : User) (k : String) (v : AttrVal),
      hasattrUser k = true → k ≠ key → g (setUserAttr u k v) = g u)
    (l : List (String × Option AttrVal)) (u : User)
    (h : ∀ v, (key, some v) ∉ l) :
    g (applyKwargs l u) = g u := by
  induction l generalizing u with
  | nil => rfl
  | cons kv tl ih =>
    have htl : ∀ v, (key, some v) ∉ tl := fun v hv => h v (List.mem_cons_of_mem _ hv)
    obtain ⟨k, ov⟩ := kv
    cases ov with
    | none => exact ih u htl
    | some v =>
      have hk : k ≠ key := by
        intro hkk
        exact h v (by rw [← hkk]; exact List.mem_cons_self _ _)
      show g (applyKwargs tl (if hasattrUser k then setUserAttr u k v else u)) = g u
      by_cases hattr : hasattrUser k
      · rw [if_pos hattr, ih _ htl, hset u k v hattr hk]
      · rw [if_neg hattr, ih _ htl]

lemma not_mem_of_filtered_key (kwargs : List (String × Option AttrVal)) (key : String)
    (v : AttrVal)
    (h : ∀ kv ∈ kwargs, kv.1 ≠ key) : (key, some v) ∉ kwargs := by
  intro hmem
  exact h (key, some v) hmem rfl

/-- C10: `update_user` pops `password` and `id` before applying the kwargs,
so the updated row always keeps the previous password and id whatever keys
and values the caller supplies; every column with no non-`None` entry in
the kwargs (in particular every `None`-valued input) keeps its previous
value, and the stored row is exactly the returned row. -/
theorem update_user_frame (db : DB) (uid : Nat)
    (kwargs : List (String × Option AttrVal)) (u0 u1 : User) (db1 : DB)
    (h0 : db.users.find? (fun u => u.id == uid) = some u0)
    (h : update_user db uid kwargs = (db1, some u1)) :
    u1.password = u0.password ∧
    u1.id = u0.id ∧
    ((∀ v, ("firstname", some v) ∉ kwargs) → u1.firstname = u0.firstname) ∧
    ((∀ v, ("lastname", some v) ∉ kwargs) → u1.lastname = u0.lastname) ∧
    ((∀ v, ("username", some v) ∉ kwargs) → u1.username = u0.username) ∧
    ((∀ v, ("email", some v) ∉ kwargs) → u1.email = u0.email) ∧
    ((∀ v, ("bio", some v) ∉ kwargs) → u1.bio = u0.bio) ∧
    ((∀ v, ("profile_image_url", some v) ∉ kwargs) →
      u1.profile_image_url = u0.profile_image_url) ∧
    ((∀ v, ("banner_image_url", some v) ∉ kwargs) →
      u1.banner_image_url = u0.banner_image_url) ∧
    ((∀ v, ("is_active", some v) ∉ kwargs) → u1.is_active = u0.is_active) ∧
    db1.users = updateFirstUser db.users uid (fun _ => u1) := by
  rw [update_user, h0] at h
  obtain ⟨hdb1, hu1⟩ := Prod.mk.injEq .. ▸ h
  have hu1 : u1 = applyKwargs
      ((kwargs.filter (fun kv => kv.1 ≠ "password")).filter (fun kv => kv.1 ≠ "id")) u0 := by
    exact (Option.some.injEq .. ▸ hu1).symm
  have hnp : ∀ v, ("password", (some v : Option AttrVal)) ∉
      ((kwargs.filter (fun kv => kv.1 ≠ "password")).filter (fun kv => kv.1 ≠ "id")) := by
    intro v hmem
    have := (List.mem_filter.mp (List.mem_of_mem_filter hmem)).2
    simp at this
  have hni : ∀ v, ("id", (some v : Option AttrVal)) ∉
      ((kwargs.filter (fun kv => kv.1 ≠ "password")).filter (fun kv => kv.1 ≠ "id")) := by
    intro v hmem
    have := (List.mem_filter.mp hmem).2
    simp at this
  have hsub : ∀ kv ∈ ((kwargs.filter (fun kv => kv.1 ≠ "password")).filter
      (fun kv => kv.1 ≠ "id")), kv ∈ kwargs :=
    fun kv hkv => List.mem_of_mem_filter (List.mem_of_mem_filter hkv)
  refine ⟨?_, ?_, ?_, ?_, ?_, ?_, ?_, ?_, ?_, ?_, ?_⟩
  · rw [hu1]
    exact applyKwargs_preserves (fun u => u.password) "password"
      (fun u k v ha hk => setUserAttr_preserves_password u k v ha hk) _ u0 hnp
  · rw [hu1]
    exact applyKwargs_preserves (fun u => u.id) "id"
      (fun u k v ha hk => setUserAttr_preserves_id u k v ha hk) _ u0 hni
  · intro hno
    rw [hu1]
    exact applyKwargs_preserves (fun u => u.firstname) "firstname"
      (fun u k v ha hk => setUserAttr_preserves_firstname u k v ha hk) _ u0
      (fun v hv => hno v (hsub _ hv))
  · intro hno
    rw [hu1]
    exact applyKwargs_preserves (fun u => u.lastname) "lastname"
      (fun u k v ha hk => setUserAttr_preserves_lastname u k v ha hk) _ u0
      (fun v hv => hno v (hsub _ hv))
  · intro hno
    rw [hu1]
    exact applyKwargs_preserves (fun u => u.username) "username"
      (fun u k v ha hk => setUserAttr_preserves_username u k v ha hk) _ u0
      (fun v hv => hno v (hsub _ hv))
  · intro hno
    rw [hu1]
    exact applyKwargs_preserves (fun u => u.email) "email"
      (fun u k v ha hk => setUserAttr_preserves_email u k v ha hk) _ u0
      (fun v hv => hno v (hsub _ hv))
  · intro hno
    rw [hu1]
    exact applyKwargs_preserves (fun u => u.bio) "bio"
      (fun u k v ha hk => setUserAttr_preserves_bio u k v ha hk) _ u0
      (fun v hv => hno v (hsub _ hv))
  · intro hno
    rw [hu1]
    exact applyKwargs_preserves (fun u => u.profile_image_url) "profile_image_url"
      (fun u k v ha hk => setUserAttr_preserves_profile_image_url u k v ha hk) _ u0
      (fun v hv => hno v (hsub _ hv))
  · intro hno
    rw [hu1]
    exact applyKwargs_preserves (fun u => u.banner_image_url) "banner_image_url"
      (fun u k v ha hk => setUserAttr_preserves_banner_image_url u k v ha hk) _ u0
      (fun v hv => hno v (hsub _ hv))
  · intro hno
    rw [hu1]
    exact applyKwargs_preserves (fun u => u.is_active) "is_active"
      (fun u k v ha hk => setUserAttr_preserves_is_active u k v ha hk) _ u0
      (fun v hv => hno v (hsub _ hv))
  · subst hdb1
    rw [hu1]

theorem update_user_frame_witness :
    exDb10.users.find? (fun u => u.id == 2) = some bob ∧
    update_user exDb10 2 exKwargs = (exDb10u, some exBob1) ∧
    (exBob1.password = bob.password ∧ exBob1.id = bob.id ∧
     exBob1.bio = bob.bio ∧
     exDb10u.users = updateFirstUser exDb10.users 2 (fun _ => exBob1)) := by
  have H := update_user_frame exDb10 2 exKwargs bob exBob1 exDb10u (by decide) (by decide)
  refine ⟨by decide, by decide, H.1, H.2.1, ?_, H.2.2.2.2.2.2.2.2.2.2⟩
  refine H.2.2.2.2.2.2.1 ?_
  intro v
  simp [exKwargs]

lemma updateFirstTweet_map_id (l : List Tweet) (tid : Nat) (f : Tweet → Tweet)
    (hf : ∀ t, (f t).id = t.id) :
    (updateFirstTweet l tid f).map (·.id) = l.map (·.id) := by
  induction l with
  | nil => rfl
  | cons t ts ih =>
    by_cases h : t.id = tid <;> simp [updateFirstTweet, h, hf, ih]

lemma mem_updateFirstTweet_target (l : List Tweet) (tid : Nat) (f : Tweet → Tweet)
    (_hf : ∀ t, (f t).id = t.id) (hnd : (l.map (·.id)).Nodup) :
    ∀ t' ∈ updateFirstTweet l tid f, t'.id = tid → ∃ t ∈ l, t.id = tid ∧ t' = f t := by
  induction l with
  | nil => intro t' h; simp [updateFirstTweet] at h
  | cons t ts ih =>
    intro t' ht' hid
    by_cases h : t.id = tid
    · rw [updateFirstTweet, if_pos h] at ht'
      rcases List.mem_cons.mp ht' with rfl | hmem
      · exact ⟨t, List.mem_cons_self _ _, h, rfl⟩
      · exfalso
        have : t'.id ∈ ts.map (·.id) := List.mem_map_of_mem _ hmem
        rw [List.map_cons] at hnd
        rw [hid, ← h] at this
        exact (List.nodup_cons.mp hnd).1 this
    · rw [updateFirstTweet, if_neg h] at ht'
      rcases List.mem_cons.mp ht' with rfl | hmem
      · exact absurd hid h
      · obtain ⟨t0, ht0, hid0, heq⟩ := ih (by
          rw [List.map_cons] at hnd
          exact (List.nodup_cons.mp hnd).2) t' hmem hid
        exact ⟨t0, List.mem_cons_of_mem _ ht0, hid0, heq⟩

lemma mem_updateFirstTweet_other (l : List Tweet) (tid : Nat) (f : Tweet → Tweet)
    (hf : ∀ t, (f t).id = t.id) :
    ∀ t' ∈ updateFirstTweet l tid f, t'.id ≠ tid → t' ∈ l := by
  induction l with
  | nil => intro t' h; simp [updateFirstTweet] at h
  | cons t ts ih =>
    intro t' ht' hid
    by_cases h : t.id = tid
    · rw [updateFirstTweet, if_pos h] at ht'
      rcases List.mem_cons.mp ht' with rfl | hmem
      · exact absurd ((hf t).symm ▸ h) hid
      · exact List.mem_cons_of_mem _ hmem
    · rw [updateFirstTweet, if_neg h] at ht'
      rcases List.mem_cons.mp ht' with rfl | hmem
      · exact List.mem_cons_self _ _
      · exact List.mem_cons_of_mem _ (ih t' hmem hid)

lemma countLikes_append_single (likes : List Like) (uid tid tid0 : Nat) :
    countLikes (likes ++ [⟨uid, tid⟩]) tid0 =
      countLikes likes tid0 + (if tid = tid0 then 1 else 0) := by
  simp only [countLikes, List.countP_append, List.countP_cons, List.countP_nil]
  by_cases h : tid = tid0 <;> simp [h]

lemma countLikes_eraseP_of_mem (likes : List Like) (cu_id tid : Nat) (l0 : Like)
    (hmem : l0 ∈ likes) (hp : (l0.user_id == cu_id && l0.tweet_id == tid) = true)
    (tid0 : Nat) :
    countLikes likes tid0 =
      countLikes (likes.eraseP (fun l => l.user_id == cu_id && l.tweet_id == tid)) tid0 +
        (if tid = tid0 then 1 else 0) := by
  obtain ⟨a, l₁, l₂, hl₁, hpa, hdecomp, herase⟩ :=
    List.exists_of_eraseP (p := fun l : Like => l.user_id == cu_id && l.tweet_id == tid) hmem hp
  have hatid : a.tweet_id = tid := by
    have := (Bool.and_eq_true _ _).mp hpa
    exact beq_iff_eq.mp this.2
  rw [herase, hdecomp]
  simp only [countLikes, List.countP_append, List.countP_cons]
  by_cases h : tid = tid0
  · simp [hatid, h]
    omega
  · have : (a.tweet_id == tid0) = false := by
      rw [beq_eq_false_iff_ne, hatid]
      exact h
    simp [this]
    omega

lemma applyLU_tweets_map_id (op : LUOp) (db : DB) :
    ((applyLU op db).tweets).map (·.id) = db.tweets.map (·.id) := by
  cases op with
  | like cu tid =>
    show ((like_tweet cu tid db).1.tweets).map (·.id) = _
    cases h1 : db.tweets.find? (fun t => t.id == tid) with
    | none => rw [like_tweet_eq_of_no_tweet cu tid db h1]
    | some tweet =>
      cases h2 : db.likes.find? (fun l => l.user_id == cu.id && l.tweet_id == tid) with
      | some l0 => rw [like_tweet_eq_of_dup cu tid db tweet l0 h1 h2]
      | none =>
        rw [like_tweet_eq_of_success cu tid db tweet h1 h2]
        exact updateFirstTweet_map_id _ _ _ (fun _ => rfl)
  | unlike cu tid =>
    show ((unlike_tweet cu tid db).1.tweets).map (·.id) = _
    cases h1 : db.likes.find? (fun l => l.user_id == cu.id && l.tweet_id == tid) with
    | none => rw [unlike_tweet_eq_of_no_like cu tid db h1]
    | some l0 =>
      cases h2 : db.tweets.find? (fun t => t.id == tid) with
      | some t1 =>
        rw [unlike_tweet_eq_of_success cu tid db l0 t1 h1 h2]
        exact updateFirstTweet_map_id _ _ _ (fun _ => rfl)
      | none => rw [unlike_tweet_eq_of_success_no_tweet cu tid db l0 h1 h2]

lemma applyLU_preserves_invariant (op : LUOp) (db : DB) (tid0 : Nat)
    (hnd : (db.tweets.map (·.id)).Nodup)
    (h : likesInvariant db tid0) : likesInvariant (applyLU op db) tid0 := by
  cases op with
  | like cu tid =>
    show likesInvariant (like_tweet cu tid db).1 tid0
    cases h1 : db.tweets.find? (fun t => t.id == tid) with
    | none => rw [like_tweet_eq_of_no_tweet cu tid db h1]; exact h
    | some tweet =>
      cases h2 : db.likes.find? (fun l => l.user_id == cu.id && l.tweet_id == tid) with
      | some l0 => rw [like_tweet_eq_of_dup cu tid db tweet l0 h1 h2]; exact h
      | none =>
        rw [like_tweet_eq_of_success cu tid db tweet h1 h2]
        intro t' ht' hid
        show t'.likes_count = (countLikes (db.likes ++ [⟨cu.id, tid⟩]) tid0 : Int)
        rw [countLikes_append_single]
        by_cases htid : tid = tid0
        · obtain ⟨t, htmem, htid2, rfl⟩ :=
            mem_updateFirstTweet_target db.tweets tid
              (fun t => { t with likes_count := t.likes_count + 1 })
              (fun _ => rfl) hnd t' ht' (htid ▸ hid)
          have := h t htmem (htid ▸ htid2)
          show t.likes_count + 1 = _
          rw [this]
          simp [htid]
        · have hmem := mem_updateFirstTweet_other db.tweets tid
            (fun t => { t with likes_count := t.likes_count + 1 })
            (fun _ => rfl) t' ht' (fun hc => htid (hc ▸ hid ▸ rfl))
          have := h t' hmem hid
          rw [this]
          simp [htid]
  | unlike cu tid =>
    show likesInvariant (unlike_tweet cu tid db).1 tid0
    cases h1 : db.likes.find? (fun l => l.user_id == cu.id && l.tweet_id == tid) with
    | none => rw [unlike_tweet_eq_of_no_like cu tid db h1]; exact h
    | some l0 =>
      have hl0mem : l0 ∈ db.likes := List.mem_of_find?_eq_some h1
      have hl0p : (l0.user_id == cu.id && l0.tweet_id == tid) = true :=
        List.find?_some (p := fun l : Like => l.user_id == cu.id && l.tweet_id == tid) h1
      have hcnt := countLikes_eraseP_of_mem db.likes cu.id tid l0 hl0mem hl0p
      cases h2 : db.tweets.find? (fun t => t.id == tid) with
      | some t1 =>
        rw [unlike_tweet_eq_of_success cu tid db l0 t1 h1 h2]
        intro t' ht' hid
        show t'.likes_count =
          (countLikes (db.likes.eraseP
            (fun l => l.user_id == cu.id && l.tweet_id == tid)) tid0 : Int)
        by_cases htid : tid = tid0
        · obtain ⟨t, htmem, htid2, rfl⟩ :=
            mem_updateFirstTweet_target db.tweets tid
              (fun t => { t with likes_count := max 0 (t.likes_count - 1) })
              (fun _ => rfl) hnd t' ht' (htid ▸ hid)
          have hinv := h t htmem (htid ▸ htid2)
          have hpos : 0 < countLikes db.likes tid := by
            rw [countLikes, List.countP_pos_iff]
            exact ⟨l0, hl0mem, ((Bool.and_eq_true _ _).mp hl0p).2⟩
          have hc := hcnt tid0
          rw [if_pos htid] at hc
          show max 0 (t.likes_count - 1) = _
          rw [hinv]
          have h1le : (1 : Int) ≤ (countLikes db.likes tid0 : Int) := by
            exact_mod_cast htid ▸ hpos
          rw [max_eq_right (by omega)]
          omega
        · have hmem := mem_updateFirstTweet_other db.tweets tid
            (fun t => { t with likes_count := max 0 (t.likes_count - 1) })
            (fun _ => rfl) t' ht' (fun hc => htid (hc ▸ hid ▸ rfl))
          have hinv := h t' hmem hid
          have hc := hcnt tid0
          rw [if_neg htid] at hc
          rw [hinv]
          omega
      | none =>
        rw [unlike_tweet_eq_of_success_no_tweet cu tid db l0 h1 h2]
        intro t' ht' hid
        show t'.likes_count =
          (countLikes (db.likes.eraseP
            (fun l => l.user_id == cu.id && l.tweet_id == tid)) tid0 : Int)
        by_cases htid : tid = tid0
        · exfalso
          have := List.find?_eq_none.mp h2 t' ht'
          simp [htid ▸ hid] at this
        · have hinv := h t' ht' hid
          have hc := hcnt tid0
          rw [if_neg htid] at hc
          rw [hinv]
          omega

/-- C1: if the tweet with id `tid` satisfies
`likes_count = count(Like where tweet_id = tid)`, then after any sequence
of like/unlike requests (failed requests change nothing, successful ones
move edge and counter together) the equality holds again; tweet ids are
assumed unique, as the primary key guarantees. -/
theorem likes_count_invariant_preserved (ops : List LUOp) (db : DB) (tid : Nat)
    (hnd : (db.tweets.map (·.id)).Nodup)
    (h : likesInvariant db tid) : likesInvariant (runLU ops db) tid := by
  induction ops generalizing db with
  | nil => exact h
  | cons op tl ih =>
    have hnd2 : (((applyLU op db).tweets).map (·.id)).Nodup := by
      rw [applyLU_tweets_map_id]
      exact hnd
    exact ih (applyLU op db) hnd2 (applyLU_preserves_invariant op db tid hnd h)

theorem likes_count_invariant_preserved_witness :
    (exDb1.tweets.map (·.id)).Nodup ∧
    likesInvariant exDb1 1 ∧
    likesInvariant (runLU exOps1 exDb1) 1 := by
  refine ⟨by decide, ?_, ?_⟩
  · show ∀ t ∈ exDb1.tweets, t.id = 1 → t.likes_count = (countLikes exDb1.likes 1 : Int)
    decide
  · refine likes_count_invariant_preserved exOps1 exDb1 1 (by decide) ?_
    show ∀ t ∈ exDb1.tweets, t.id = 1 → t.likes_count = (countLikes exDb1.likes 1 : Int)
    decide

lemma sortByCreatedDesc_perm {α : Type} (key : α → Nat) (l : List α) :
    List.Perm (sortByCreatedDesc key l) l :=
  List.perm_insertionSort _ l

lemma mem_sortByCreatedDesc {α : Type} (key : α → Nat) (l : List α) (a : α) :
    a ∈ sortByCreatedDesc key l ↔ a ∈ l :=
  (sortByCreatedDesc_perm key l).mem_iff

lemma length_take_le {α : Type} (n : Nat) (l : List α) : (l.take n).length ≤ n := by
  rw [List.length_take]
  exact min_le_left _ _

lemma nodup_ids_take_sort (l : List User) (n : Nat)
    (hnd : (l.map (·.id)).Nodup) :
    (((sortByCreatedDesc (·.created_at) l).take n).map (·.id)).Nodup :=
  List.Nodup.sublist ((List.take_sublist _ _).map _)
    (((sortByCreatedDesc_perm (·.created_at) l).map (·.id)).nodup_iff.mpr hnd)

lemma suggestions_base_sublist (cu : User) (db : DB) :
    List.Sublist (suggestions_base cu db) db.users := by
  simp only [suggestions_base]
  split
  · exact List.Sublist.trans (List.filter_sublist _) (List.filter_sublist _)
  · exact List.Sublist.trans (List.filter_sublist _)
      (List.Sublist.trans (List.filter_sublist _) (List.filter_sublist _))

lemma mem_suggestions_base (cu : User) (db : DB) (u : User)
    (hu : u ∈ suggestions_base cu db) :
    u ∈ db.users ∧ u.is_active = true ∧ u.id ≠ cu.id ∧
    ∀ f ∈ db.follows, ¬(f.follower_id = cu.id ∧ f.following_id = u.id) := by
  simp only [suggestions_base] at hu
  rw [List.mem_filter] at hu
  obtain ⟨hu1, hact⟩ := hu
  by_cases hc : ((db.follows.filter (fun f => f.follower_id == cu.id)).map
      (·.following_id)).isEmpty = true
  · rw [if_pos hc] at hu1
    rw [List.mem_filter] at hu1
    obtain ⟨humem, hne⟩ := hu1
    have hfilter : db.follows.filter (fun f => f.follower_id == cu.id) = [] :=
      List.map_eq_nil_iff.mp (List.isEmpty_iff.mp hc)
    refine ⟨humem, hact, by simpa using hne, fun f hf hfp => ?_⟩
    have := List.filter_eq_nil_iff.mp hfilter f hf
    simp [hfp.1] at this
  · rw [if_neg hc] at hu1
    rw [List.mem_filter] at hu1
    obtain ⟨hu2, hnc⟩ := hu1
    rw [List.mem_filter] at hu2
    obtain ⟨humem, hne⟩ := hu2
    refine ⟨humem, hact, by simpa using hne, fun f hf hfp => ?_⟩
    have hmemid : u.id ∈ (db.follows.filter (fun f => f.follower_id == cu.id)).map
        (·.following_id) :=
      hfp.2 ▸ List.mem_map_of_mem _ (List.mem_filter.mpr ⟨hf, by simp [hfp.1]⟩)
    rw [Bool.not_eq_true', ← Bool.not_eq_true] at hnc
    exact hnc (List.elem_iff.mpr hmemid)

lemma suggestions_base_nodup_ids (cu : User) (db : DB)
    (hnd : (db.users.map (·.id)).Nodup) :
    ((suggestions_base cu db).map (·.id)).Nodup :=
  List.Nodup.sublist ((suggestions_base_sublist cu db).map _) hnd

lemma mem_suggestions_emotion_based (limit : Nat) (cu : User) (now : Nat) (db : DB)
    (emotion : String) (u : User)
    (hu : u ∈ suggestions_emotion_based limit cu now db emotion) :
    u ∈ suggestions_base cu db ∧ u.id ∈ similar_emotion_users emotion now db := by
  simp only [suggestions_emotion_based] at hu
  have hu2 := (List.take_sublist _ _).subset hu
  rw [mem_sortByCreatedDesc, List.mem_filter] at hu2
  exact ⟨hu2.1, List.elem_iff.mp hu2.2⟩

lemma mem_get_user_suggestions (limit : Nat) (cu : User) (now : Nat) (db : DB)
    (u : User) (hu : u ∈ get_user_suggestions limit cu now db) :
    u ∈ suggestions_base cu db := by
  simp only [get_user_suggestions] at hu
  split at hu
  · rename_i expr _
    by_cases hlt : (suggestions_emotion_based limit cu now db expr.emotion).length < limit
    · rw [if_pos hlt] at hu
      rcases List.mem_append.mp hu with hmem | hmem
      · exact (mem_suggestions_emotion_based limit cu now db expr.emotion u hmem).1
      · have := (List.take_sublist _ _).subset hmem
        rw [mem_sortByCreatedDesc, List.mem_filter] at this
        exact this.1
    · rw [if_neg hlt] at hu
      exact (mem_suggestions_emotion_based limit cu now db expr.emotion u hu).1
  · have := (List.take_sublist _ _).subset hu
    rwa [mem_sortByCreatedDesc] at this

lemma nodup_ids_take_sort_filter (l : List User) (p : User → Bool) (n : Nat)
    (hnd : (l.map (·.id)).Nodup) :
    (((sortByCreatedDesc (·.created_at) (l.filter p)).take n).map (·.id)).Nodup :=
  nodup_ids_take_sort _ _ (List.Nodup.sublist ((List.filter_sublist _).map _) hnd)

/-- C9: for every requester, the suggestion list contains only active users
other than the requester not already followed by them, carries no duplicate
user id (given primary-key uniqueness of `users.id`), never exceeds the
requested limit, and when the requester has a recent emotion record it
splits as emotion-matched candidates followed by non-matched padding. -/
theorem suggestions_properties (limit : Nat) (cu : User) (now : Nat) (db : DB)
    (hnd : (db.users.map (·.id)).Nodup) :
    (∀ u ∈ get_user_suggestions limit cu now db,
      u.is_active = true ∧ u.id ≠ cu.id ∧
      ∀ f ∈ db.follows, ¬(f.follower_id = cu.id ∧ f.following_id = u.id)) ∧
    ((get_user_suggestions limit cu now db).map (·.id)).Nodup ∧
    (get_user_suggestions limit cu now db).length ≤ limit ∧
    (∀ expr, recent_expression cu now db = some expr →
      ∃ l1 l2, get_user_suggestions limit cu now db = l1 ++ l2 ∧
        (∀ u ∈ l1, u.id ∈ similar_emotion_users expr.emotion now db) ∧
        (∀ u ∈ l2, u.id ∉ similar_emotion_users expr.emotion now db)) := by
  have hbnd := suggestions_base_nodup_ids cu db hnd
  refine ⟨?_, ?_, ?_, ?_⟩
  · intro u hu
    obtain ⟨_, hact, hne, hfol⟩ :=
      mem_suggestions_base cu db u (mem_get_user_suggestions limit cu now db u hu)
    exact ⟨hact, hne, hfol⟩
  · simp only [get_user_suggestions]
    split
    · rename_i expr _
      have hebnd :
          ((suggestions_emotion_based limit cu now db expr.emotion).map (·.id)).Nodup := by
        simp only [suggestions_emotion_based]
        exact nodup_ids_take_sort_filter _ _ _ hbnd
      by_cases hlt : (suggestions_emotion_based limit cu now db expr.emotion).length < limit
      · rw [if_pos hlt, List.map_append]
        refine List.Nodup.append hebnd (nodup_ids_take_sort_filter _ _ _ hbnd) ?_
        intro a ha1 ha2
        obtain ⟨u, hu, rfl⟩ := List.mem_map.mp ha2
        have hsub := (List.take_sublist _ _).subset hu
        rw [mem_sortByCreatedDesc, List.mem_filter] at hsub
        obtain ⟨_, hcond⟩ := hsub
        rw [Bool.not_eq_true', ← Bool.not_eq_true] at hcond
        exact hcond (List.elem_iff.mpr ha1)
      · rw [if_neg hlt]
        exact hebnd
    · exact nodup_ids_take_sort _ _ hbnd
  · simp only [get_user_suggestions]
    split
    · rename_i expr _
      by_cases hlt : (suggestions_emotion_based limit cu now db expr.emotion).length < limit
      · rw [if_pos hlt, List.length_append]
        have h2 := length_take_le
          (limit - (suggestions_emotion_based limit cu now db expr.emotion).length)
          (sortByCreatedDesc (·.created_at)
            ((suggestions_base cu db).filter
              (fun u => !(((suggestions_emotion_based limit cu now db
                expr.emotion).map (·.id)).contains u.id))))
        omega
      · rw [if_neg hlt]
        simp only [suggestions_emotion_based]
        exact length_take_le _ _
    · exact length_take_le _ _
  · intro expr hre
    simp only [get_user_suggestions]
    split
    · rename_i e heq
      rw [hre] at heq
      obtain rfl : expr = e := (Option.some.injEq ..).mp heq
      by_cases hlt : (suggestions_emotion_based limit cu now db expr.emotion).length < limit
      · rw [if_pos hlt]
        refine ⟨suggestions_emotion_based limit cu now db expr.emotion, _, rfl, ?_, ?_⟩
        · intro u hu
          exact (mem_suggestions_emotion_based limit cu now db expr.emotion u hu).2
        · intro u hu hsim
          have hsub := (List.take_sublist _ _).subset hu
          rw [mem_sortByCreatedDesc, List.mem_filter] at hsub
          obtain ⟨hub, hcond⟩ := hsub
          rw [Bool.not_eq_true', ← Bool.not_eq_true] at hcond
          have heb_all : suggestions_emotion_based limit cu now db expr.emotion =
              sortByCreatedDesc (·.created_at)
                ((suggestions_base cu db).filter
                  (fun u => (similar_emotion_users expr.emotion now db).contains u.id)) := by
            simp only [suggestions_emotion_based] at hlt ⊢
            rw [List.length_take] at hlt
            exact List.take_of_length_le (by omega)
          have humem : u ∈ suggestions_emotion_based limit cu now db expr.emotion := by
            rw [heb_all, mem_sortByCreatedDesc, List.mem_filter]
            exact ⟨hub, List.elem_iff.mpr hsim⟩
          exact hcond (List.elem_iff.mpr (List.mem_map_of_mem _ humem))
      · rw [if_neg hlt]
        refine ⟨suggestions_emotion_based limit cu now db expr.emotion, [],
          (List.append_nil _).symm, ?_, by simp⟩
        intro u hu
        exact (mem_suggestions_emotion_based limit cu now db expr.emotion u hu).2
    · rename_i heq
      rw [heq] at hre
      exact absurd hre (by simp)

theorem suggestions_properties_witness :
    (exDb9.users.map (·.id)).Nodup ∧
    get_user_suggestions 3 u9a 100 exDb9 = [u9b, u9c] ∧
    (∀ u ∈ get_user_suggestions 3 u9a 100 exDb9,
      u.is_active = true ∧ u.id ≠ u9a.id ∧
      ∀ f ∈ exDb9.follows, ¬(f.follower_id = u9a.id ∧ f.following_id = u.id)) ∧
    ((get_user_suggestions 3 u9a 100 exDb9).map (·.id)).Nodup ∧
    (get_user_suggestions 3 u9a 100 exDb9).length ≤ 3 ∧
    (∀ expr, recent_expression u9a 100 exDb9 = some expr →
      ∃ l1 l2, get_user_suggestions 3 u9a 100 exDb9 = l1 ++ l2 ∧
        (∀ u ∈ l1, u.id ∈ similar_emotion_users expr.emotion 100 exDb9) ∧
        (∀ u ∈ l2, u.id ∉ similar_emotion_users expr.emotion 100 exDb9)) := by
  have H := suggestions_properties 3 u9a 100 exDb9 (by decide)
  exact ⟨by decide, by decide, H.1, H.2.1, H.2.2.1, H.2.2.2⟩

end TwitterBackend
